import Mathlib

/-!
Shallow embedding of the request/response mapping layer of the
rust-anilist client library, together with theorems settling the
specification claims about it.

Conventions of the embedding:
* `serde_json::Value` is modelled by the inductive `Json`.
* Rust machine integers are modelled by `Int` (for `i32`/`i64`) and
  `Nat` (for the unsigned types); where the source performs a lossy
  `as` cast the reduction modulo `2^w` is written explicitly.
* A Rust `panic!` / `unwrap()` on a failure path is modelled by
  `Option.none` or by a dedicated `panics` constructor of an outcome
  type, so that "panics" and "returns a value" are distinguishable.
* Derived `serde::Deserialize` instances for the plain enums are
  modelled by `deserialize : String → Option _` functions: the derive
  macro accepts exactly the renamed variant names and fails on every
  other string (none of the enums carries a `serde(other)` fallback).
  The hand-written `From<&str>` conversions are modelled separately by
  `from_str` functions.
* Rust `str::to_uppercase`/`to_ascii_uppercase` are both modelled by
  `strUpper` (character-wise ASCII uppercasing — the wire vocabulary is
  ASCII), and `str::trim` by `strTrim` (whitespace stripped from both
  ends).
-/

namespace Anilist

/-- Model of `serde_json::Value`: the dynamically typed JSON tree that the
request executor returns and that the records keep for the lazily typed
`relations`/`characters` sub-documents. Numbers are modelled as integers
(the mapping layer only ever reads integral numbers via `as_i64`/`as_u64`). -/
inductive Json where
  | null
  | bool (b : Bool)
  | num (n : Int)
  | str (s : String)
  | arr (elems : List Json)
  | obj (fields : List (String × Json))
deriving Repr, Inhabited

/-- First value bound to key `k` in an object's field list (`Map::get`). -/
def Json.lookup (k : String) : List (String × Json) → Option Json
  | [] => none
  | (k', v) :: rest => if k = k' then some v else Json.lookup k rest

/-- Model of `serde_json`'s `Value::index` for a string key (`value["k"]`):
on an object it returns the bound value or `Null` when the key is absent;
on every other value it returns `Null`. -/
def Json.index (j : Json) (k : String) : Json :=
  match j with
  | .obj fields => (Json.lookup k fields).getD .null
  | _ => .null

/-- Model of `Value::as_str`. -/
def Json.asStr : Json → Option String
  | .str s => some s
  | _ => none

/-- Model of `Value::as_i64`. -/
def Json.asInt : Json → Option Int
  | .num n => some n
  | _ => none

/-- Model of `Value::as_u64`: defined only on non-negative numbers. -/
def Json.asU64 : Json → Option Nat
  | .num n => if n < 0 then none else some n.toNat
  | _ => none

/-- Model of `Value::as_bool`. -/
def Json.asBool : Json → Option Bool
  | .bool b => some b
  | _ => none

/-- Model of `Value::as_array`. -/
def Json.asArr : Json → Option (List Json)
  | .arr xs => some xs
  | _ => none

/-- Decode of an optional string struct field under serde: a missing key or
an explicit `null` yields `none`; a string yields `some`; any other value is
a type error (outer `none` = decode failure). -/
def Json.optStrField (j : Json) (k : String) : Option (Option String) :=
  match j.index k with
  | .null => some none
  | .str s => some (some s)
  | _ => none

/-- Decode of an optional integer struct field (`Option<i64>` etc.). -/
def Json.optIntField (j : Json) (k : String) : Option (Option Int) :=
  match j.index k with
  | .null => some none
  | .num n => some (some n)
  | _ => none

/-- Model of Rust `str::to_uppercase` / `to_ascii_uppercase` for the wire
vocabulary: character-wise uppercasing. -/
def strUpper (s : String) : String :=
  String.mk (s.data.map Char.toUpper)

/-- Leading and trailing whitespace characters stripped from a character
list. -/
def trimChars (cs : List Char) : List Char :=
  ((cs.dropWhile Char.isWhitespace).reverse.dropWhile Char.isWhitespace).reverse

/-- Model of Rust `str::trim`: whitespace stripped from both ends. -/
def strTrim (s : String) : String :=
  String.mk (trimChars s.data)

/-! ## Controlled-vocabulary enums (src/models/format.rs, status.rs,
season.rs, source.rs, relation.rs, color.rs).

A Rust `match` on a string scrutinee with literal arms is embedded as a
first-match lookup (`match_wire`) over the list of its `pattern => value`
arms; the catch-all `_` arm, when present, becomes the `Option.getD`
default. The arm list of each enum's derived serde `Deserialize` (the
`rename_all`-renamed variant names) coincides with the arm list of its
hand-written `From<&str>` conversion, so both are embedded over one shared
arm table per enum. -/

/-- Result of the first arm of a Rust string `match` whose literal pattern
equals the scrutinee, `none` when no arm matches. -/
def match_wire {α : Type} (t : String) : List (String × α) → Option α
  | [] => none
  | (k, v) :: rest => if t = k then some v else match_wire t rest

/-- Model of `Format` (src/models/format.rs). The `#[default]` variant is `Tv`. -/
inductive Format where
  | Tv
  | TvShort
  | Movie
  | Special
  | Ova
  | Ona
  | Music
  | Manga
  | Novel
  | OneShot
deriving Repr, DecidableEq, Inhabited

/-- Rust `Format::default()` = `Tv`. -/
def Format.default : Format := .Tv

/-- The wire names of the `Format` variants: the
`rename_all(deserialize = "SCREAMING_SNAKE_CASE")` renames of the serde
derive, which are also exactly the arm patterns of `impl From<&str> for
Format` (format.rs lines 86-102). -/
def Format.wire_arms : List (String × Format) :=
  [("TV", .Tv), ("TV_SHORT", .TvShort), ("MOVIE", .Movie),
   ("SPECIAL", .Special), ("OVA", .Ova), ("ONA", .Ona), ("MUSIC", .Music),
   ("MANGA", .Manga), ("NOVEL", .Novel), ("ONE_SHOT", .OneShot)]

/-- Model of the derived `serde::Deserialize` for `Format`: exactly the
renamed variant names are accepted, every other string is a decode error
(there is no `serde(other)` fallback in src/models/format.rs). -/
def Format.deserialize (s : String) : Option Format :=
  match_wire s Format.wire_arms

/-- Model of `impl From<&str> for Format` (format.rs lines 86-102): match
on `value.trim().to_uppercase()`, with catch-all `_ => Format::default()`. -/
def Format.from_str (value : String) : Format :=
  (match_wire (strUpper (strTrim value)) Format.wire_arms).getD Format.default

/-- Model of `Status` (src/models/status.rs). The `#[default]` variant is
`NotYetReleased`. `Status` has no `From<&str>` conversion in the source;
its only decode path is the serde derive. -/
inductive Status where
  | Finished
  | Releasing
  | NotYetReleased
  | Cancelled
  | Hiatus
  | Current
  | Planning
  | Completed
  | Dropped
  | Paused
  | Repeating
deriving Repr, DecidableEq, Inhabited

/-- Rust `Status::default()` = `NotYetReleased`. -/
def Status.default : Status := .NotYetReleased

/-- The wire names of the `Status` variants (`SCREAMING_SNAKE_CASE`
renames of the serde derive). -/
def Status.wire_arms : List (String × Status) :=
  [("FINISHED", .Finished), ("RELEASING", .Releasing),
   ("NOT_YET_RELEASED", .NotYetReleased), ("CANCELLED", .Cancelled),
   ("HIATUS", .Hiatus), ("CURRENT", .Current), ("PLANNING", .Planning),
   ("COMPLETED", .Completed), ("DROPPED", .Dropped), ("PAUSED", .Paused),
   ("REPEATING", .Repeating)]

/-- Model of the derived `serde::Deserialize` for `Status` (no fallback). -/
def Status.deserialize (s : String) : Option Status :=
  match_wire s Status.wire_arms

/-- Model of `Season` (src/models/season.rs). Default variant: `Winter`. -/
inductive Season where
  | Winter
  | Spring
  | Summer
  | Fall
deriving Repr, DecidableEq, Inhabited

/-- Rust `Season::default()` = `Winter`. -/
def Season.default : Season := .Winter

/-- The wire names of the `Season` variants (`UPPERCASE` renames of the
serde derive, also the arm patterns of `impl From<&str> for Season`,
season.rs lines 54-64). -/
def Season.wire_arms : List (String × Season) :=
  [("WINTER", .Winter), ("SPRING", .Spring), ("SUMMER", .Summer),
   ("FALL", .Fall)]

/-- Model of the derived `serde::Deserialize` for `Season` (no fallback). -/
def Season.deserialize (s : String) : Option Season :=
  match_wire s Season.wire_arms

/-- Model of `impl From<&str> for Season` (season.rs lines 54-64): match on
`value.trim().to_uppercase()`, with catch-all `_ => Season::default()`. -/
def Season.from_str (value : String) : Season :=
  (match_wire (strUpper (strTrim value)) Season.wire_arms).getD Season.default

/-- Model of `Source` (src/models/source.rs). Default variant: `Other`. -/
inductive Source where
  | Original
  | Manga
  | LightNovel
  | VisualNovel
  | VideoGame
  | Other
  | Novel
  | Doujinshi
  | Anime
  | WebNovel
  | LiveAction
  | Game
  | Comic
  | MultimediaProject
  | PictureBook
deriving Repr, DecidableEq, Inhabited

/-- Rust `Source::default()` = `Other`. -/
def Source.default : Source := .Other

/-- The wire names of the `Source` variants (`SCREAMING_SNAKE_CASE`
renames of the serde derive, also the arm patterns of `impl From<&str>
for Source`, source.rs lines 76-97). -/
def Source.wire_arms : List (String × Source) :=
  [("ORIGINAL", .Original), ("MANGA", .Manga), ("LIGHT_NOVEL", .LightNovel),
   ("VISUAL_NOVEL", .VisualNovel), ("VIDEO_GAME", .VideoGame),
   ("OTHER", .Other), ("NOVEL", .Novel), ("DOUJINSHI", .Doujinshi),
   ("ANIME", .Anime), ("WEB_NOVEL", .WebNovel),
   ("LIVE_ACTION", .LiveAction), ("GAME", .Game), ("COMIC", .Comic),
   ("MULTIMEDIA_PROJECT", .MultimediaProject),
   ("PICTURE_BOOK", .PictureBook)]

/-- Model of the derived `serde::Deserialize` for `Source` (no fallback). -/
def Source.deserialize (s : String) : Option Source :=
  match_wire s Source.wire_arms

/-- Model of `impl From<&str> for Source` (source.rs lines 76-97): match on
`source.to_ascii_uppercase()` — note: no `trim` here, unlike `Format` and
`Season` — with catch-all `_ => Source::Other`. -/
def Source.from_str (source : String) : Source :=
  (match_wire (strUpper source) Source.wire_arms).getD Source.Other

/-- Model of `RelationType` (src/models/relation.rs lines 98-128). Default
variant: `Other`. No `From<&str>` conversion exists for it. -/
inductive RelationType where
  | Adaptation
  | Prequel
  | Sequel
  | Parent
  | SideStory
  | Character
  | Summary
  | Alternative
  | SpinOff
  | Other
  | Source
  | Compilation
  | Contains
deriving Repr, DecidableEq, Inhabited

/-- The wire names of the `RelationType` variants (`SCREAMING_SNAKE_CASE`
renames of the serde derive). -/
def RelationType.wire_arms : List (String × RelationType) :=
  [("ADAPTATION", .Adaptation), ("PREQUEL", .Prequel), ("SEQUEL", .Sequel),
   ("PARENT", .Parent), ("SIDE_STORY", .SideStory),
   ("CHARACTER", .Character), ("SUMMARY", .Summary),
   ("ALTERNATIVE", .Alternative), ("SPIN_OFF", .SpinOff),
   ("OTHER", .Other), ("SOURCE", .Source), ("COMPILATION", .Compilation),
   ("CONTAINS", .Contains)]

/-- Model of the derived `serde::Deserialize` for `RelationType` (no
fallback). -/
def RelationType.deserialize (s : String) : Option RelationType :=
  match_wire s RelationType.wire_arms

/-- Model of `Color` (src/models/color.rs): seven named variants plus the
`#[serde(untagged)] Hex(String)` catch-all. Default variant: `Purple`. -/
inductive Color where
  | Blue
  | Purple
  | Pink
  | Orange
  | Red
  | Green
  | Gray
  | Hex (hex : String)
deriving Repr, DecidableEq, Inhabited

/-- The wire names of the named `Color` variants (`UPPERCASE` renames of
the serde derive, also the arm patterns of `impl From<&str> for Color`,
color.rs lines 46-59). -/
def Color.named_arms : List (String × Color) :=
  [("BLUE", .Blue), ("PURPLE", .Purple), ("PINK", .Pink),
   ("ORANGE", .Orange), ("RED", .Red), ("GREEN", .Green), ("GRAY", .Gray)]

/-- Model of the derived `serde::Deserialize` for `Color` on a wire
string: the named variants are matched by their `UPPERCASE` renames
exactly; any other string is absorbed by the untagged `Hex` variant, so
decoding a string never fails. -/
def Color.deserialize_str (s : String) : Color :=
  (match_wire s Color.named_arms).getD (.Hex s)

/-- Model of `impl From<&str> for Color` (color.rs lines 46-59): the named
variants are matched on `value.trim().to_uppercase()`; when none matches,
the result is `Color::Hex(value.to_string())` — the payload keeps the
original, untrimmed input. -/
def Color.from_str (value : String) : Color :=
  (match_wire (strUpper (strTrim value)) Color.named_arms).getD (.Hex value)

/-! ## Client configuration (src/client.rs lines 20-84, 600-607) -/

/-- Model of `Client`: the immutable configuration carried by every record.
The timeout is in seconds (`Duration::from_secs`). -/
structure Client where
  api_token : Option String
  timeout : Nat
deriving Repr, DecidableEq, Inhabited

/-- Model of `impl Default for Client` (client.rs lines 600-607): no token,
20-second timeout. -/
def Client.mk_default : Client :=
  { api_token := none, timeout := 20 }

/-- Model of `Client::with_timeout` (client.rs lines 37-42). -/
def Client.with_timeout (duration : Nat) : Client :=
  { api_token := none, timeout := duration }

/-- Model of `Client::with_token` (client.rs lines 52-57). -/
def Client.with_token (token : String) : Client :=
  { api_token := some token, timeout := 20 }

/-! ## Error type (src/error.rs) -/

/-- Model of `Error` (src/error.rs lines 16-27). Note the enum has exactly
these three variants; in particular there is no `NotSupported` /
`UnsupportedOperation` variant. `JsonParseError` carries the wrapped
`serde_json::Error` as its message text. -/
inductive Error where
  | InvalidId
  | ApiError (msg : String)
  | JsonParseError (msg : String)
deriving Repr, DecidableEq, Inhabited

/-! ## Value types: Title, Cover, Image, Date, Tag, Link
(src/models/title.rs, cover.rs, image.rs, date.rs, tag.rs, link.rs) -/

/-- Model of `Title` (title.rs lines 9-20): three optional language
variants around the required `native` form. -/
structure Title where
  romaji : Option String
  english : Option String
  native : String
  user_preferred : Option String
deriving Repr, DecidableEq, Inhabited

/-- Accessor `Title::romaji` (title.rs lines 24-26):
`self.romaji.as_deref().unwrap_or(&self.native)`. -/
def Title.get_romaji (t : Title) : String :=
  t.romaji.getD t.native

/-- Accessor `Title::english` (title.rs lines 29-31). -/
def Title.get_english (t : Title) : String :=
  t.english.getD t.native

/-- Accessor `Title::native` (title.rs lines 34-36). -/
def Title.get_native (t : Title) : String :=
  t.native

/-- Accessor `Title::user_preferred` (title.rs lines 39-41). -/
def Title.get_user_preferred (t : Title) : String :=
  t.user_preferred.getD t.native

/-- Model of the derived serde decode of `Title`
(`rename_all(deserialize = "lowercase")`, so the wire keys are `romaji`,
`english`, `native` and `user_preferred`): `native` is required, the other
three fields are optional; a present field of the wrong type is a decode
error; a non-object input is a decode error. -/
def Title.deserialize (j : Json) : Option Title :=
  match j with
  | .obj _ => do
    let romaji ← j.optStrField "romaji"
    let english ← j.optStrField "english"
    let native ← (j.index "native").asStr
    let user_preferred ← j.optStrField "user_preferred"
    some ⟨romaji, english, native, user_preferred⟩
  | _ => none

/-- Model of `Cover` (cover.rs lines 21-32): three optional resolution
variants plus an optional accent color. -/
structure Cover where
  extra_large : Option String
  large : Option String
  medium : Option String
  color : Option Color
deriving Repr, DecidableEq, Inhabited

/-- Accessor `Cover::largest` (cover.rs lines 36-46). -/
def Cover.largest (c : Cover) : Option String :=
  match c.extra_large with
  | some xl => some xl
  | none =>
    match c.large with
    | some l => some l
    | none =>
      match c.medium with
      | some m => some m
      | none => none

/-- Model of the derived serde decode of `Cover` (camelCase wire keys
`extraLarge`, `large`, `medium`, `color`; all fields optional). -/
def Cover.deserialize (j : Json) : Option Cover :=
  match j with
  | .obj _ => do
    let extra_large ← j.optStrField "extraLarge"
    let large ← j.optStrField "large"
    let medium ← j.optStrField "medium"
    let color ←
      match j.index "color" with
      | .null => some none
      | .str s => some (some (Color.deserialize_str s))
      | _ => none
    some ⟨extra_large, large, medium, color⟩
  | _ => none

/-- Model of `Image` (image.rs lines 11-16). -/
structure Image where
  large : String
  medium : String
deriving Repr, DecidableEq, Inhabited

/-- Model of `Date` (date.rs lines 12-19): three optional components. -/
structure Date where
  year : Option Int
  month : Option Nat
  day : Option Nat
deriving Repr, DecidableEq, Inhabited

/-- Largest year accepted by chrono's `NaiveDate` (`i32::MAX >> 13`). -/
def chronoMaxYear : Int := 262143

/-- Smallest year accepted by chrono's `NaiveDate` (`i32::MIN >> 13`). -/
def chronoMinYear : Int := -262144

/-- Whether year `y` is a leap year of the proleptic Gregorian calendar. -/
def isLeapYear (y : Int) : Bool :=
  y % 4 = 0 && (y % 100 ≠ 0 || y % 400 = 0)

/-- Number of days of month `m` of year `y` (months counted 1-12). -/
def daysInMonth (y : Int) (m : Nat) : Nat :=
  if m = 2 then (if isLeapYear y then 29 else 28)
  else if m = 4 ∨ m = 6 ∨ m = 9 ∨ m = 11 then 30
  else 31

/-- Whether `(y, m, d)` is a real calendar date that chrono's
`NaiveDate::from_ymd_opt` accepts. -/
def ymdValid (y : Int) (m d : Nat) : Bool :=
  chronoMinYear ≤ y && y ≤ chronoMaxYear &&
    1 ≤ m && m ≤ 12 && 1 ≤ d && d ≤ daysInMonth y m

/-- Model of chrono's `NaiveDate::from_ymd_opt` (an external collaborator
of date.rs): `some (y, m, d)` exactly on real calendar dates, `none`
otherwise. Month 0 or day 0 is never accepted; year 0 (1 BC of the
proleptic Gregorian calendar) is a perfectly valid chrono year. -/
def fromYmdOpt (y : Int) (m d : Nat) : Option (Int × Nat × Nat) :=
  if ymdValid y m d then some (y, m, d) else none

/-- Model of `Date::as_date` (date.rs lines 110-117): each absent component
defaults to 0 and the result of `from_ymd_opt` is unwrapped — `none` here
models the panic of that `unwrap()`. -/
def Date.as_date (dt : Date) : Option (Int × Nat × Nat) :=
  fromYmdOpt (dt.year.getD 0) (dt.month.getD 0) (dt.day.getD 0)

/-- Model of `Date::is_valid` (date.rs lines 129-131): all three components
present. -/
def Date.is_valid (dt : Date) : Bool :=
  dt.year.isSome && dt.month.isSome && dt.day.isSome

/-- Model of `Tag` (tag.rs lines 9-29). -/
structure Tag where
  id : Int
  name : String
  description : String
  category : String
  rank : Int
  is_general_spoiler : Bool
  is_media_spoiler : Bool
  is_adult : Bool
  user_id : Option Int
deriving Repr, DecidableEq, Inhabited

/-- Model of `Language` (language.rs lines 39-95). Default variant:
`Japanese`. -/
inductive Language where
  | Japanese
  | English
  | Korean
  | Italian
  | Spanish
  | Portuguese
  | French
  | German
  | Hebrew
  | Hungarian
  | Chinese
  | Arabic
  | Filipino
  | Catalan
  | Finnish
  | Turkish
  | Dutch
  | Swedish
  | Thai
  | Tagalog
  | Malaysian
  | Indonesian
  | Vietnamese
  | Nepali
  | Hindi
  | Urdu
deriving Repr, DecidableEq, Inhabited

/-- Model of `LinkType` (link.rs lines 42-52). Default variant: `Info`. -/
inductive LinkType where
  | Info
  | Streaming
  | Social
deriving Repr, DecidableEq, Inhabited

/-- Model of `Link` (link.rs lines 12-39). -/
structure Link where
  id : Option Int
  title : Option String
  thumbnail : Option String
  url : Option String
  site : Option String
  site_id : Option Int
  link_type : Option LinkType
  language : Option Language
  color : Option Color
  icon : Option String
  notes : Option String
  is_disabled : Option Bool
deriving Repr, DecidableEq, Inhabited

/-- Model of `NotificationType` (notification.rs lines 20-52). Default
variant: `ActivityMessage`. -/
inductive NotificationType where
  | ActivityMessage
  | ActivityReply
  | Following
  | ActivityMention
  | ThreadCommentMention
  | Airing
  | ActivityLike
  | ActivityReplyLike
  | ThreadLike
  | ActivityReplySubscribed
  | RelatedMediaAddition
  | MediaDataChange
  | MediaMerge
  | MediaDeletion
deriving Repr, DecidableEq, Inhabited

/-- Model of `NotificationOption` (notification.rs lines 10-17). -/
structure NotificationOption where
  notification_type : NotificationType
  enabled : Bool
deriving Repr, DecidableEq, Inhabited

/-! ## Rust `Default` values. The `derive(Default)` of the source gives 0
for numbers, `None` for options, the empty string/vector for strings and
vectors, `false` for booleans, `Value::Null` for raw sub-documents, and
the `#[default]`-marked variant for enums. -/

/-- Rust `Title::default()`. -/
def Title.default : Title := ⟨none, none, "", none⟩

/-- Rust `Cover::default()`. -/
def Cover.default : Cover := ⟨none, none, none, none⟩

/-! ## Records: Character, Person, Studio, AiringSchedule, Anime, Manga -/

/-- Modelled from the spec: `src/models/character.rs` is not under src/
(only `mod.rs` declares it and anime.rs/manga.rs/client.rs use it). Per
§3 the CharacterRecord is a flatter record with name/image/URL/
favorite-count fields which "additionally carry a contextual role string
that only has meaning relative to a specific media edge" and whose role
"must be merged in at unwrap time, not stored on the canonical character
entity"; like the other records it carries the owning client and the
full-load provenance flag. The contextual role is modelled as the role
string. -/
structure Character where
  id : Int
  name : Option String
  image : Option Image
  url : Option String
  favourites : Option Int
  role : Option String
  client : Client
  is_full_loaded : Bool
deriving Repr, DecidableEq, Inhabited

/-- Modelled from the spec: the serde decode of a `Character` from an
envelope subtree, per §4.3 — the identifier is required ("decode failure
(type mismatch, missing required field such as identifier)"), every
optional wire field absent or null decodes to an unset value, and the
contextual role stays unset because it belongs to the media edge, not to
the canonical character entity. -/
def Character.deserialize (j : Json) : Option Character :=
  match j with
  | .obj _ => do
    let id ← (j.index "id").asInt
    let name ← j.optStrField "name"
    let url ← j.optStrField "siteUrl"
    let favourites ← j.optIntField "favourites"
    some { id := id, name := name, image := none, url := url,
           favourites := favourites, role := none,
           client := Client.mk_default, is_full_loaded := false }
  | _ => none

/-- Modelled from the spec: `src/models/person.rs` is not under src/. Per
§3 the PersonRecord is a flatter record with name/image/URL/favorite-count
fields, carrying the owning client and the full-load provenance flag. -/
structure Person where
  id : Int
  name : Option String
  url : Option String
  favourites : Option Int
  client : Client
  is_full_loaded : Bool
deriving Repr, DecidableEq, Inhabited

/-- Model of `Studio` (studio.rs lines 24-40). -/
structure Studio where
  id : Int
  name : String
  is_animation_studio : Bool
  url : String
  is_favourite : Option Bool
  favourites : Int
deriving Repr, DecidableEq, Inhabited

/-- Model of `AiringSchedule` (anime.rs lines 242-254). The source field
`at` (wire name `airingAt`) is spelled `airing_at` here because `at` is a
reserved word in Lean. -/
structure AiringSchedule where
  id : Nat
  airing_at : Int
  time_until : Nat
  episode : Nat
deriving Repr, DecidableEq, Inhabited

/-- Model of `Anime` (anime.rs lines 59-154). The raw `relations` and
`characters` sub-documents stay untyped `Json`, exactly as the source
keeps them as `serde_json::Value`. -/
structure Anime where
  id : Int
  id_mal : Option Int
  title : Title
  format : Format
  status : Status
  description : String
  start_date : Option Date
  end_date : Option Date
  season : Option Season
  season_year : Option Nat
  season_int : Option Nat
  episodes : Option Nat
  duration : Option Nat
  country_of_origin : Option String
  is_licensed : Option Bool
  source : Option Source
  hashtag : Option String
  updated_at : Option Nat
  cover : Cover
  banner : Option String
  genres : Option (List String)
  synonyms : Option (List String)
  average_score : Option Nat
  mean_score : Option Nat
  popularity : Option Nat
  is_locked : Option Bool
  trending : Option Nat
  favourites : Option Nat
  tags : Option (List Tag)
  relations : Json
  characters : Json
  staff : Option (List Person)
  studios : Option (List Studio)
  is_favourite : Option Bool
  is_favourite_blocked : Option Bool
  is_adult : Bool
  next_airing_episode : Option AiringSchedule
  external_links : Option (List Link)
  streaming_episodes : Option (List Link)
  url : String
  client : Client
  is_full_loaded : Bool
deriving Repr, Inhabited

/-- Rust `Anime::default()` (derive(Default) over anime.rs lines 59-154). -/
def Anime.default : Anime :=
  { id := 0, id_mal := none, title := Title.default,
    format := Format.default, status := Status.default, description := "",
    start_date := none, end_date := none, season := none,
    season_year := none, season_int := none, episodes := none,
    duration := none, country_of_origin := none, is_licensed := none,
    source := none, hashtag := none, updated_at := none,
    cover := Cover.default, banner := none, genres := none,
    synonyms := none, average_score := none, mean_score := none,
    popularity := none, is_locked := none, trending := none,
    favourites := none, tags := none, relations := Json.null,
    characters := Json.null, staff := none, studios := none,
    is_favourite := none, is_favourite_blocked := none, is_adult := false,
    next_airing_episode := none, external_links := none,
    streaming_episodes := none, url := "", client := Client.mk_default,
    is_full_loaded := false }

/-- Model of `Manga` (manga.rs lines 57-143). -/
structure Manga where
  id : Int
  id_mal : Option Int
  title : Title
  format : Format
  status : Status
  description : String
  start_date : Option Date
  end_date : Option Date
  chapters : Option Nat
  volumes : Option Nat
  country_of_origin : Option String
  is_licensed : Option Bool
  source : Option Source
  hashtag : Option String
  updated_at : Option Nat
  cover : Cover
  banner : Option String
  genres : Option (List String)
  synonyms : Option (List String)
  average_score : Option Nat
  mean_score : Option Nat
  popularity : Option Nat
  is_locked : Option Bool
  trending : Option Nat
  favourites : Option Nat
  tags : Option (List Tag)
  relations : Json
  characters : Json
  staff : Option (List Person)
  studios : Option (List Studio)
  is_favourite : Option Bool
  is_favourite_blocked : Option Bool
  is_adult : Bool
  external_links : Option (List Link)
  url : String
  client : Client
  is_full_loaded : Bool
deriving Repr, Inhabited

/-- Rust `Manga::default()` (derive(Default) over manga.rs lines 57-143). -/
def Manga.default : Manga :=
  { id := 0, id_mal := none, title := Title.default,
    format := Format.default, status := Status.default, description := "",
    start_date := none, end_date := none, chapters := none,
    volumes := none, country_of_origin := none, is_licensed := none,
    source := none, hashtag := none, updated_at := none,
    cover := Cover.default, banner := none, genres := none,
    synonyms := none, average_score := none, mean_score := none,
    popularity := none, is_locked := none, trending := none,
    favourites := none, tags := none, relations := Json.null,
    characters := Json.null, staff := none, studios := none,
    is_favourite := none, is_favourite_blocked := none, is_adult := false,
    external_links := none, url := "", client := Client.mk_default,
    is_full_loaded := false }

/-! ## User record and its support types (src/models/user.rs) -/

/-- Model of `UserTitleLanguage` (user.rs lines 133-149). Default:
`Romaji`. -/
inductive UserTitleLanguage where
  | Romaji
  | English
  | Native
  | RomajiStylised
  | EnglishStylised
  | NativeStylised
deriving Repr, DecidableEq, Inhabited

/-- Model of `UserStaffNameLanguage` (user.rs lines 152-162). Default:
`Romaji`. -/
inductive UserStaffNameLanguage where
  | RomajiWestern
  | Romaji
  | Native
deriving Repr, DecidableEq, Inhabited

/-- Model of `ListActivityOption` (user.rs lines 165-172). -/
structure ListActivityOption where
  status : Status
  disabled : Bool
deriving Repr, DecidableEq, Inhabited

/-- Model of `Options` (user.rs lines 102-130). -/
structure Options where
  title_language : Option UserTitleLanguage
  display_adult_content : Bool
  airing_notifications : Bool
  profile_color : Color
  notifications_options : Option (List NotificationOption)
  timezone : Option String
  activity_merge_time : Int
  staff_name_language : UserStaffNameLanguage
  restrict_messages_to_following : Bool
  disabled_list_activity : Option (List ListActivityOption)
deriving Repr, DecidableEq, Inhabited

/-- Model of `MediaListTypeOptions` (user.rs lines 187-200). -/
structure MediaListTypeOptions where
  section_order : List String
  split_completed_section_by_format : Bool
  custom_lists : List String
  advanced_scoring : List String
  advanced_scoring_enabled : Bool
deriving Repr, DecidableEq, Inhabited

/-- Model of `MediaListOptions` (user.rs lines 174-184). -/
structure MediaListOptions where
  row_order : String
  anime_list : MediaListTypeOptions
  manga_list : MediaListTypeOptions
deriving Repr, DecidableEq, Inhabited

/-- Model of `Favourites` (user.rs lines 202-215). -/
structure Favourites where
  anime : List Anime
  manga : List Manga
  characters : List Character
  staff : List Person
  studios : List Studio
deriving Repr, Inhabited

/-- Model of `UserFormatStatistic` (user.rs lines 250-264). -/
structure UserFormatStatistic where
  count : Int
  minutes_watched : Option Int
  chapters_read : Option Int
  media_ids : List Int
  format : Format
deriving Repr, DecidableEq, Inhabited

/-- Model of `UserStatusStatistic` (user.rs lines 266-282). -/
structure UserStatusStatistic where
  count : Int
  minutes_watched : Option Int
  chapters_read : Option Int
  media_ids : List Int
  status : Status
deriving Repr, DecidableEq, Inhabited

/-- Model of `UserStatistics` (user.rs lines 227-247). The `f32` field
`standard_deviation` is carried opaquely as a rational: the mapping layer
never computes with it. -/
structure UserStatistics where
  count : Int
  standard_deviation : Option Rat
  minutes_watched : Option Int
  episodes_watched : Option Int
  chapters_read : Option Int
  volumes_read : Option Int
  formats : Option (List UserFormatStatistic)
  statuses : List UserStatusStatistic
deriving Repr, DecidableEq, Inhabited

/-- Model of `UserStatisticTypes` (user.rs lines 217-225). -/
structure UserStatisticTypes where
  anime : UserStatistics
  manga : UserStatistics
deriving Repr, DecidableEq, Inhabited

/-- Model of `User` (user.rs lines 20-69). -/
structure User where
  id : Int
  name : String
  about : Option String
  avatar : Option Image
  banner : Option String
  donator_badge : String
  donator_tier : Int
  favourites : Favourites
  is_blocked : Option Bool
  is_follower : Option Bool
  is_following : Option Bool
  media_list_options : Option MediaListOptions
  options : Option Options
  url : String
  statistics : UserStatisticTypes
  unread_notification_count : Option Int
  created_at : Int
  updated_at : Int
  client : Client
  is_full_loaded : Bool
deriving Repr, Inhabited

/-- Rust `UserStatistics::default()`. -/
def UserStatistics.default : UserStatistics :=
  { count := 0, standard_deviation := none, minutes_watched := none,
    episodes_watched := none, chapters_read := none, volumes_read := none,
    formats := none, statuses := [] }

/-- Rust `User::default()` (derive(Default) over user.rs lines 20-69). -/
def User.default : User :=
  { id := 0, name := "", about := none, avatar := none, banner := none,
    donator_badge := "", donator_tier := 0,
    favourites := ⟨[], [], [], [], []⟩, is_blocked := none,
    is_follower := none, is_following := none, media_list_options := none,
    options := none, url := "",
    statistics := ⟨UserStatistics.default, UserStatistics.default⟩,
    unread_notification_count := none, created_at := 0, updated_at := 0,
    client := Client.mk_default, is_full_loaded := false }

/-! ## Media enum and Relation (src/models/media.rs, relation.rs) -/

/-- Model of `Media` (media.rs lines 11-22). Default variant: `Unknown`. -/
inductive Media where
  | Anime (anime : Anime)
  | Manga (manga : Manga)
  | Unknown
deriving Repr, Inhabited

/-- Model of `Media::id` (media.rs lines 26-32). -/
def Media.id : Media → Int
  | .Anime anime => anime.id
  | .Manga manga => manga.id
  | .Unknown => 0

/-- Model of `Media::title` (media.rs lines 35-41): the romaji accessor of
the variant's title, or the literal `"Unknown"`. -/
def Media.title : Media → String
  | .Anime anime => anime.title.get_romaji
  | .Manga manga => manga.title.get_romaji
  | .Unknown => "Unknown"

/-- Model of `Media::format` (media.rs lines 44-50). -/
def Media.format : Media → Option Format
  | .Anime anime => some anime.format
  | .Manga manga => some manga.format
  | .Unknown => none

/-- Model of `Relation` (relation.rs lines 23-34): the related media is
kept as a raw untyped `node` sub-document. -/
structure Relation where
  node : Json
  id : Int
  relation_type : RelationType
  is_main_studio : Bool
deriving Repr, Inhabited

/-- Model of the `Media::Anime` arm of `Relation::media` (relation.rs
lines 42-56): each required field of the node is unwrapped (`none` here
models those `unwrap()` panics), `as u8` casts reduce modulo 256, and all
remaining fields come from `Anime::default()`. -/
def Relation.build_anime_node (media : Json) : Option Anime := do
  let id ← (media.index "id").asInt
  let title ← Title.deserialize (media.index "title")
  let format ← (media.index "format").asStr.bind Format.deserialize
  let status ← (media.index "status").asStr.bind Status.deserialize
  let description ← (media.index "description").asStr
  let cover ← Cover.deserialize (media.index "coverImage")
  let url ← (media.index "siteUrl").asStr
  some { Anime.default with
           id := id, id_mal := (media.index "idMal").asInt,
           title := title, format := format, status := status,
           description := description, cover := cover,
           banner := (media.index "bannerImage").asStr,
           average_score := ((media.index "averageScore").asU64).map (· % 256),
           mean_score := ((media.index "meanScore").asU64).map (· % 256),
           url := url }

/-- Model of the `Media::Manga` arm of `Relation::media` (relation.rs
lines 57-71). -/
def Relation.build_manga_node (media : Json) : Option Manga := do
  let id ← (media.index "id").asInt
  let title ← Title.deserialize (media.index "title")
  let format ← (media.index "format").asStr.bind Format.deserialize
  let status ← (media.index "status").asStr.bind Status.deserialize
  let description ← (media.index "description").asStr
  let cover ← Cover.deserialize (media.index "coverImage")
  let url ← (media.index "siteUrl").asStr
  some { Manga.default with
           id := id, id_mal := (media.index "idMal").asInt,
           title := title, format := format, status := status,
           description := description, cover := cover,
           banner := (media.index "bannerImage").asStr,
           average_score := ((media.index "averageScore").asU64).map (· % 256),
           mean_score := ((media.index "meanScore").asU64).map (· % 256),
           url := url }

/-- Whether the relation node's `"type"` tag is one of the two media
discriminators matched by `Relation::media`. -/
def Relation.type_tag_is_media (r : Relation) : Bool :=
  match (r.node.index "type").asStr with
  | some s => s = "ANIME" || s = "MANGA"
  | none => false

/-- Model of `Relation::media` (relation.rs lines 38-74): dispatch on
`self.node["type"].as_str()`; any tag other than `"ANIME"`/`"MANGA"` —
including a missing or non-string tag — yields `Media::Unknown`. The
outer `none` models a panic inside the matched arm's field unwraps. -/
def Relation.media (r : Relation) : Option Media :=
  match (r.node.index "type").asStr with
  | some s =>
    if s = "ANIME" then (Relation.build_anime_node r.node).map Media.Anime
    else if s = "MANGA" then (Relation.build_manga_node r.node).map Media.Manga
    else some Media.Unknown
  | none => some Media.Unknown

/-! ## Operation resolver and request executor (src/client.rs) -/

/-- Model of `MediaType` (models/mod.rs lines 68-85). -/
inductive MediaType where
  | Anime
  | Manga
  | Character
  | User
  | Person
  | Studio
  | Unknown
deriving Repr, DecidableEq, Inhabited

/-- Model of `Action` (client.rs lines 618-623). -/
inductive Action where
  | Get
  | Search
deriving Repr, DecidableEq, Inhabited

/-- Outcome of `Client::get_query`: either the function returns its
`Result<String>` value, or it panics in an `unimplemented!()` arm. -/
inductive QueryOutcome where
  | returns (result : Except Error String)
  | panics
deriving Repr, Inhabited

/-- Model of `Client::get_query` (client.rs lines 564-597). The bundled
query documents themselves (`../queries/*.graphql`, pulled in with
`include_str!`) are not under src/ and are opaque static text per §6 of
the spec; they are represented by their asset paths. Every wired
`(media_type, action)` pair returns `Ok`; every other pair — the `_`
arms of the two matches, covering `(Studio, Get)`, `(Character, Search)`,
`(Person, Search)`, `(Studio, Search)` and the `Unknown` media type —
hits `unimplemented!()`, i.e. panics. -/
def Client.get_query (media_type : MediaType) (action : Action) : QueryOutcome :=
  match action with
  | .Get =>
    match media_type with
    | .Anime => .returns (.ok "../queries/get_anime.graphql")
    | .Manga => .returns (.ok "../queries/get_manga.graphql")
    | .Character => .returns (.ok "../queries/get_character.graphql")
    | .User => .returns (.ok "../queries/get_user.graphql")
    | .Person => .returns (.ok "../queries/get_person.graphql")
    | _ => .panics
  | .Search =>
    match media_type with
    | .Anime => .returns (.ok "../queries/search_anime.graphql")
    | .Manga => .returns (.ok "../queries/search_manga.graphql")
    | .User => .returns (.ok "../queries/search_user.graphql")
    | _ => .panics

/-- Outcome of the response-body handling inside `Client::request`:
either the successfully parsed JSON envelope is returned, or the function
panics. There is no error-returning channel for a malformed body. -/
inductive RequestBodyOutcome where
  | ok (envelope : Json)
  | panics
deriving Repr, Inhabited

/-- Model of the body-handling step of `Client::request` (client.rs lines
548-551): `serde_json::from_str::<serde_json::Value>(&response).unwrap()`.
The argument is the outcome of the external `serde_json` parse of the
response text (`some` envelope on valid JSON, `none` otherwise); the
`unwrap()` turns a parse failure into a panic, never into a typed
`Error`. -/
def Client.request_parse_body (parsed : Option Json) : RequestBodyOutcome :=
  match parsed with
  | some envelope => .ok envelope
  | none => .panics

/-! ## Get operations: the decode continuations (client.rs lines 106-346).
Each `get_*` method sends the request, decodes the relevant envelope
subtree and, on success, runs a small continuation on the decoded record
before returning it. These continuations are embedded as functions of the
decoded record. -/

/-- Model of the success continuation of `Client::get_anime` (client.rs
lines 116-124): stamp the owning client and mark the record fully
loaded. -/
def Client.get_anime_ok (c : Client) (anime : Anime) : Anime :=
  { anime with client := c, is_full_loaded := true }

/-- Model of the success continuation of `Client::get_manga` (client.rs
lines 157-165). -/
def Client.get_manga_ok (c : Client) (manga : Manga) : Manga :=
  { manga with client := c, is_full_loaded := true }

/-- Model of the success continuation of `Client::get_character`
(client.rs lines 197-205). -/
def Client.get_character_ok (c : Client) (character : Character) : Character :=
  { character with client := c, is_full_loaded := true }

/-- Model of the success continuation of `Client::get_person` (client.rs
lines 337-345). -/
def Client.get_person_ok (c : Client) (person : Person) : Person :=
  { person with client := c, is_full_loaded := true }

/-- Model of the success continuation of `Client::get_user` (client.rs
lines 260-263): the decoded user is returned unchanged — unlike every
other get operation, neither the client nor the `is_full_loaded` flag is
set. -/
def Client.get_user_ok (_c : Client) (user : User) : User :=
  user

/-- Model of the success continuation of `Client::get_user_by_name`
(client.rs lines 297-304): stamps the client and marks the record fully
loaded. -/
def Client.get_user_by_name_ok (c : Client) (user : User) : User :=
  { user with client := c, is_full_loaded := true }

/-! ## Lazy loader (anime.rs lines 177-183, manga.rs lines 163-169,
user.rs lines 92-98) -/

/-- Outcome of a `load_full` call, before any network traffic happens:
either the record issues a fresh Get through its stored client for the
given identifier, or it panics because it is already fully loaded. -/
inductive LoadOutcome where
  | fetch (client : Client) (id : Int)
  | panics (msg : String)
deriving Repr, DecidableEq, Inhabited

/-- Model of `Anime::load_full` (anime.rs lines 177-183):
`if !self.is_full_loaded { self.client.get_anime(self.id).await } else {
panic!("This anime is already full loaded!") }`. -/
def Anime.load_full (a : Anime) : LoadOutcome :=
  if !a.is_full_loaded then .fetch a.client a.id
  else .panics "This anime is already full loaded!"

/-- Model of `Manga::load_full` (manga.rs lines 163-169). -/
def Manga.load_full (m : Manga) : LoadOutcome :=
  if !m.is_full_loaded then .fetch m.client m.id
  else .panics "This manga is already full loaded"

/-- Model of `User::load_full` (user.rs lines 92-98). -/
def User.load_full (u : User) : LoadOutcome :=
  if !u.is_full_loaded then .fetch u.client u.id
  else .panics "This user is already full loaded"

/-! ## Edge unwrapper (anime.rs lines 186-213, manga.rs lines 172-199) -/

/-- The per-edge loop body of `Anime::characters`/`Manga::characters`,
folded over the edge list. Each edge must be an object (the collected
`as_object().unwrap()`), must have a `node` key (`get("node").unwrap()`)
and a string `role` key (`get("role").unwrap().as_str().unwrap()`) — a
violation of any of these is a panic, modelled by the outer `none`. An
edge whose node fails to decode as a `Character` is skipped (`if let
Ok(..)`); a decoded node gets the edge's role sidecar merged into its
contextual-role field. -/
def unwrap_character_edges : List Json → Option (List Character)
  | [] => some []
  | e :: rest =>
    match e with
    | .obj fields =>
      match Json.lookup "node" fields, Json.lookup "role" fields with
      | some node, some (.str role) =>
        match unwrap_character_edges rest with
        | some characters =>
          match Character.deserialize node with
          | some character => some ({ character with role := some role } :: characters)
          | none => some characters
        | none => none
      | some _, some _ => none
      | _, _ => none
    | _ => none

/-- Model of `Anime::characters` and `Manga::characters` (anime.rs lines
186-213, manga.rs lines 172-199; the two bodies are identical): the raw
`characters` sub-document must be an object with an `"edges"` array
(`as_object().unwrap()`, `get("edges").unwrap()`, `as_array().unwrap()`
— otherwise panic, modelled by `none`), and the edges are unwrapped in
order. -/
def characters_unwrap (doc : Json) : Option (List Character) :=
  match doc with
  | .obj fields =>
    match Json.lookup "edges" fields with
    | some (.arr edges) => unwrap_character_edges edges
    | some _ => none
    | none => none
  | _ => none

/-! ## Theorems for the specification claims -/

/-- C1, counterexample: the claim says that decoding an unrecognized wire
string into an enum yields the enum's default variant and never a decode
failure. On the wire-decode path (the derived serde `Deserialize`) this is
false: at the concrete unrecognized string `"SOMETHING_NEW"`, `Format` and
`Status` decoding fails (`none`) instead of producing the default
variant. -/
theorem format_status_deserialize_unknown_fails :
    Format.deserialize "SOMETHING_NEW" = none ∧
    Status.deserialize "SOMETHING_NEW" = none ∧
    ¬ Format.deserialize "SOMETHING_NEW" = some Format.default ∧
    ¬ Status.deserialize "SOMETHING_NEW" = some Status.default := by
  refine ⟨by decide, by decide, by decide, by decide⟩

/-- C1, amended: only the hand-written `From<&str>`/`From<String>`
conversions tolerate unknown strings: whenever the normalized input is not
a recognized wire name (its serde decode fails), `Format::from`,
`Season::from` and `Source::from` fall back to the respective default
variant (`Tv`, `Winter`, `Other`). The serde wire decode itself fails on
such strings (previous theorem), and `Status`/`RelationType` have no
fallback conversion at all. -/
theorem from_str_falls_back_to_default (s : String) :
    (Format.deserialize (strUpper (strTrim s)) = none → Format.from_str s = Format.default) ∧
    (Season.deserialize (strUpper (strTrim s)) = none → Season.from_str s = Season.Winter) ∧
    (Source.deserialize (strUpper s) = none → Source.from_str s = Source.Other) := by
  refine ⟨fun h => ?_, fun h => ?_, fun h => ?_⟩
  · unfold Format.deserialize at h
    unfold Format.from_str
    rw [h]
    rfl
  · unfold Season.deserialize at h
    unfold Season.from_str
    rw [h]
    rfl
  · unfold Source.deserialize at h
    unfold Source.from_str
    rw [h]
    rfl

/-- C1, witness for the amended theorem at the concrete unrecognized
string `"SOMETHING_NEW"`. -/
theorem from_str_falls_back_to_default_witness :
    Format.from_str "SOMETHING_NEW" = Format.default ∧
    Season.from_str "SOMETHING_NEW" = Season.Winter ∧
    Source.from_str "SOMETHING_NEW" = Source.Other :=
  ⟨(from_str_falls_back_to_default "SOMETHING_NEW").1 (by decide),
   (from_str_falls_back_to_default "SOMETHING_NEW").2.1 (by decide),
   (from_str_falls_back_to_default "SOMETHING_NEW").2.2 (by decide)⟩

/-- C2: the operation resolver `Client::get_query` does not return a
`NotSupported` error for the unwired pairs `(Studio, Get)` and
`(Character, Search)` — it panics in the `unimplemented!()` catch-all
arms (and the `Error` enum has no such variant to return). This theorem
evaluates the resolver at the failing inputs. -/
theorem get_query_unsupported_pairs_panic :
    Client.get_query MediaType.Studio Action.Get = QueryOutcome.panics ∧
    Client.get_query MediaType.Character Action.Search = QueryOutcome.panics ∧
    Client.get_query MediaType.Person Action.Search = QueryOutcome.panics ∧
    Client.get_query MediaType.Studio Action.Search = QueryOutcome.panics ∧
    Client.get_query MediaType.Unknown Action.Get = QueryOutcome.panics :=
  ⟨rfl, rfl, rfl, rfl, rfl⟩

/-- C3: of the Get operations, `get_user` alone returns the decoded record
unchanged: it neither stamps the client nor sets `is_full_loaded`, so a
user fetched by id has `is_full_loaded = false` (the serde default for the
flag), while every other Get operation marks its record fully loaded. As
a consequence, `load_full` on the result of a first user `load_full`
silently issues a fresh fetch instead of panicking. -/
theorem get_user_skips_full_loaded_mark :
    (∀ c u, Client.get_user_ok c u = u) ∧
    (Client.get_user_ok Client.mk_default User.default).is_full_loaded = false ∧
    User.load_full (Client.get_user_ok Client.mk_default User.default) =
      LoadOutcome.fetch Client.mk_default 0 ∧
    (∀ c a, (Client.get_anime_ok c a).is_full_loaded = true) ∧
    (∀ c m, (Client.get_manga_ok c m).is_full_loaded = true) ∧
    (∀ c ch, (Client.get_character_ok c ch).is_full_loaded = true) ∧
    (∀ c p, (Client.get_person_ok c p).is_full_loaded = true) ∧
    (∀ c u, (Client.get_user_by_name_ok c u).is_full_loaded = true) :=
  ⟨fun _ _ => rfl, rfl, rfl, fun _ _ => rfl, fun _ _ => rfl,
   fun _ _ => rfl, fun _ _ => rfl, fun _ _ => rfl⟩

/-- C4: `load_full` on a record whose `is_full_loaded` flag is set panics
with the record's "already full loaded" message, and on a record whose
flag is clear it issues a fresh Get through the record's stored client,
keyed by the record's own identifier — for anime, manga and user alike. -/
theorem load_full_discipline (a : Anime) (m : Manga) (u : User) :
    (a.is_full_loaded = true →
      a.load_full = LoadOutcome.panics "This anime is already full loaded!") ∧
    (a.is_full_loaded = false → a.load_full = LoadOutcome.fetch a.client a.id) ∧
    (m.is_full_loaded = true →
      m.load_full = LoadOutcome.panics "This manga is already full loaded") ∧
    (m.is_full_loaded = false → m.load_full = LoadOutcome.fetch m.client m.id) ∧
    (u.is_full_loaded = true →
      u.load_full = LoadOutcome.panics "This user is already full loaded") ∧
    (u.is_full_loaded = false → u.load_full = LoadOutcome.fetch u.client u.id) := by
  refine ⟨fun h => ?_, fun h => ?_, fun h => ?_, fun h => ?_, fun h => ?_, fun h => ?_⟩ <;>
    simp [Anime.load_full, Manga.load_full, User.load_full, h]

/-- C4, witness: both branches of the discipline evaluated on concrete
records (the defaults, once with the flag forced on). -/
theorem load_full_discipline_witness :
    Anime.load_full { Anime.default with is_full_loaded := true } =
      LoadOutcome.panics "This anime is already full loaded!" ∧
    Anime.load_full Anime.default = LoadOutcome.fetch Client.mk_default 0 ∧
    Manga.load_full { Manga.default with is_full_loaded := true } =
      LoadOutcome.panics "This manga is already full loaded" ∧
    Manga.load_full Manga.default = LoadOutcome.fetch Client.mk_default 0 ∧
    User.load_full { User.default with is_full_loaded := true } =
      LoadOutcome.panics "This user is already full loaded" ∧
    User.load_full User.default = LoadOutcome.fetch Client.mk_default 0 :=
  ⟨(load_full_discipline { Anime.default with is_full_loaded := true }
      Manga.default User.default).1 rfl,
   (load_full_discipline Anime.default Manga.default User.default).2.1 rfl,
   (load_full_discipline Anime.default { Manga.default with is_full_loaded := true }
      User.default).2.2.1 rfl,
   (load_full_discipline Anime.default Manga.default User.default).2.2.2.1 rfl,
   (load_full_discipline Anime.default Manga.default
      { User.default with is_full_loaded := true }).2.2.2.2.1 rfl,
   (load_full_discipline Anime.default Manga.default User.default).2.2.2.2.2 rfl⟩

/-- A characters edge of the canonical shape `{node: ..., role: "..."}`
over a node/role pair. -/
def mk_character_edge (p : Json × String) : Json :=
  Json.obj [("node", p.1), ("role", Json.str p.2)]

/-- A characters sub-document `{edges: [...]}` over the given node/role
pairs. -/
def mk_characters_doc (prs : List (Json × String)) : Json :=
  Json.obj [("edges", Json.arr (prs.map mk_character_edge))]

/-- Unfolding step of the edge unwrapper on a well-shaped edge. -/
theorem unwrap_character_edges_cons (n : Json) (r : String) (rest : List Json) :
    unwrap_character_edges (Json.obj [("node", n), ("role", Json.str r)] :: rest) =
      match unwrap_character_edges rest with
      | some characters =>
        match Character.deserialize n with
        | some character => some ({ character with role := some r } :: characters)
        | none => some characters
      | none => none := rfl

/-- C5: on a characters sub-document `{edges: [{node: ..., role: "..."},
...]}` whose every node decodes as a character, the unwrap yields exactly
one character record per edge, whose fields are those decoded from the
edge's node and whose contextual role equals the edge's role sidecar; on
`{edges: []}` it yields the empty list. -/
theorem characters_unwrap_merges_roles (prs : List (Json × String))
    (h : ∀ p ∈ prs, (Character.deserialize p.1).isSome = true) :
    (∃ l, characters_unwrap (mk_characters_doc prs) = some l ∧
        List.Forall₂
          (fun p c => ∃ c₀, Character.deserialize p.1 = some c₀ ∧
            c = { c₀ with role := some p.2 }) prs l) ∧
    characters_unwrap (mk_characters_doc []) = some [] := by
  refine ⟨?_, rfl⟩
  have hred : characters_unwrap (mk_characters_doc prs)
      = unwrap_character_edges (prs.map mk_character_edge) := rfl
  rw [hred]
  clear hred
  induction prs with
  | nil => exact ⟨[], rfl, List.Forall₂.nil⟩
  | cons p rest ih =>
    obtain ⟨l, hl, hf⟩ := ih (fun q hq => h q (List.mem_cons_of_mem _ hq))
    obtain ⟨c₀, hc⟩ := Option.isSome_iff_exists.mp (h p (List.mem_cons_self _ _))
    refine ⟨{ c₀ with role := some p.2 } :: l, ?_,
      List.Forall₂.cons ⟨c₀, hc, rfl⟩ hf⟩
    show unwrap_character_edges
        (Json.obj [("node", p.1), ("role", Json.str p.2)] ::
          rest.map mk_character_edge) = _
    rw [unwrap_character_edges_cons, hl, hc]

/-- C5, witness: a single edge whose node is the character document
`{id: 1}` and whose role sidecar is `"MAIN"`. -/
theorem characters_unwrap_merges_roles_witness :
    (∃ l, characters_unwrap
            (mk_characters_doc [(Json.obj [("id", Json.num 1)], "MAIN")]) = some l ∧
        List.Forall₂
          (fun p c => ∃ c₀, Character.deserialize p.1 = some c₀ ∧
            c = { c₀ with role := some p.2 })
          [(Json.obj [("id", Json.num 1)], "MAIN")] l) ∧
    characters_unwrap (mk_characters_doc []) = some [] :=
  characters_unwrap_merges_roles [(Json.obj [("id", Json.num 1)], "MAIN")]
    (by
      intro p hp
      rw [List.mem_singleton] at hp
      subst hp
      rfl)

/-- The fixed table of named color literals keyed by their canonical
(uppercase) spelling — the spec-side description of the named-variant
branch of the hybrid color enum, stated independently of the source's
match for comparison. -/
def spec_named_color (u : String) : Option Color :=
  if u = "BLUE" then some .Blue
  else if u = "PURPLE" then some .Purple
  else if u = "PINK" then some .Pink
  else if u = "ORANGE" then some .Orange
  else if u = "RED" then some .Red
  else if u = "GREEN" then some .Green
  else if u = "GRAY" then some .Gray
  else none

/-- C6: decoding a color first matches the fixed named table against the
trimmed, uppercased input (hence case-insensitively, ignoring surrounding
whitespace) and falls back to the raw-hex variant, carrying the original
string payload, exactly when no named literal matches. -/
theorem color_from_str_named_first (s : String) :
    Color.from_str s =
      match spec_named_color (strUpper (strTrim s)) with
      | some c => c
      | none => Color.Hex s := by
  have htab : ∀ t, match_wire t Color.named_arms = spec_named_color t := by
    intro t
    simp only [Color.named_arms, match_wire, spec_named_color]
  unfold Color.from_str
  rw [htab]
  cases hv : spec_named_color (strUpper (strTrim s)) <;> rfl

/-- C7: the body-handling step of `Client::request` panics when the
response body is not valid JSON — it does not produce a typed error (the
step's only outcomes are a parsed envelope or a panic). -/
theorem request_invalid_json_panics :
    Client.request_parse_body none = RequestBodyOutcome.panics ∧
    (∀ envelope, Client.request_parse_body (some envelope) =
      RequestBodyOutcome.ok envelope) :=
  ⟨rfl, fun _ => rfl⟩

/-- C8: each of the `romaji`, `english` and `user_preferred` accessors of
a `Title` returns the native title whenever its optional language variant
is absent, and the `native` accessor always returns the native title — so
all four accessors always produce a defined string. -/
theorem title_accessors_fall_back_to_native (t : Title) :
    (t.romaji = none → t.get_romaji = t.native) ∧
    (t.english = none → t.get_english = t.native) ∧
    (t.user_preferred = none → t.get_user_preferred = t.native) ∧
    t.get_native = t.native := by
  refine ⟨fun h => ?_, fun h => ?_, fun h => ?_, rfl⟩ <;>
    simp [Title.get_romaji, Title.get_english, Title.get_user_preferred, h]

/-- C8, witness: a title with only the native form present. -/
theorem title_accessors_fall_back_to_native_witness :
    Title.get_romaji ⟨none, none, "Native Title", none⟩ = "Native Title" ∧
    Title.get_english ⟨none, none, "Native Title", none⟩ = "Native Title" ∧
    Title.get_user_preferred ⟨none, none, "Native Title", none⟩ = "Native Title" :=
  ⟨(title_accessors_fall_back_to_native ⟨none, none, "Native Title", none⟩).1 rfl,
   (title_accessors_fall_back_to_native ⟨none, none, "Native Title", none⟩).2.1 rfl,
   (title_accessors_fall_back_to_native ⟨none, none, "Native Title", none⟩).2.2.1 rfl⟩

/-- C9, counterexample: the claim says `as_date` panics for every `Date`
on which `is_valid()` is false. The date with a missing year but month 10
and day 5 has `is_valid() = false`, yet `as_date` succeeds: the year
defaults to 0, which is a valid chrono year (1 BC), so the result is the
date 0000-10-05. -/
theorem as_date_succeeds_on_invalid_date :
    Date.is_valid ⟨none, some 10, some 5⟩ = false ∧
    Date.as_date ⟨none, some 10, some 5⟩ = some (0, 10, 5) := by
  exact ⟨rfl, by decide⟩

/-- C9, amended: `as_date` panics whenever the month or the day is absent
(the 0 default is never a valid month or day) or whenever the defaulted
components form no real calendar date; it returns a date exactly when the
components, with absent ones defaulted to 0, form a real calendar date —
in particular a missing year alone does not force a panic. -/
theorem as_date_panic_characterization (dt : Date) :
    ((dt.month = none ∨ dt.day = none) → dt.as_date = none) ∧
    (dt.as_date.isSome = true ↔
      ymdValid (dt.year.getD 0) (dt.month.getD 0) (dt.day.getD 0) = true) ∧
    (∀ y m d, dt = ⟨some y, some m, some d⟩ → ymdValid y m d = true →
      dt.as_date = some (y, m, d)) := by
  refine ⟨?_, ?_, ?_⟩
  · rintro (h | h) <;> simp [Date.as_date, h, fromYmdOpt, ymdValid]
  · unfold Date.as_date fromYmdOpt
    split_ifs with h
    · simp [h]
    · simp [h]
  · rintro y m d rfl h
    simp [Date.as_date, fromYmdOpt, h]

/-- C9, witness for the amended characterization: a date missing its month
panics; a fully specified real date is returned as such. -/
theorem as_date_panic_characterization_witness :
    Date.as_date ⟨some 2023, none, some 5⟩ = none ∧
    Date.as_date ⟨some 2023, some 10, some 5⟩ = some (2023, 10, 5) :=
  ⟨(as_date_panic_characterization ⟨some 2023, none, some 5⟩).1 (Or.inl rfl),
   (as_date_panic_characterization ⟨some 2023, some 10, some 5⟩).2.2
     2023 10 5 rfl (by decide)⟩

/-- C10: a relation whose node carries a `"type"` tag that is neither
`"ANIME"` nor `"MANGA"` — including a missing or non-string tag — yields
`Media::Unknown` from `Relation::media` (without panicking), and the
`Unknown` media answers 0 for `id()`, `"Unknown"` for `title()` and `None`
for `format()`. -/
theorem relation_media_unknown (r : Relation)
    (h : r.type_tag_is_media = false) :
    r.media = some Media.Unknown ∧
    Media.id Media.Unknown = 0 ∧
    Media.title Media.Unknown = "Unknown" ∧
    Media.format Media.Unknown = none := by
  refine ⟨?_, rfl, rfl, rfl⟩
  unfold Relation.media
  unfold Relation.type_tag_is_media at h
  cases hs : (r.node.index "type").asStr with
  | none => rfl
  | some s =>
    rw [hs] at h
    simp only [Bool.or_eq_false_iff, decide_eq_false_iff_not] at h
    simp only [if_neg h.1, if_neg h.2]

/-- C10, witness: a relation whose node is tagged `"CHARACTER"`. -/
theorem relation_media_unknown_witness :
    Relation.media
        ⟨Json.obj [("type", Json.str "CHARACTER")], 0, RelationType.Other, false⟩ =
      some Media.Unknown ∧
    Media.id Media.Unknown = 0 ∧
    Media.title Media.Unknown = "Unknown" ∧
    Media.format Media.Unknown = none :=
  relation_media_unknown
    ⟨Json.obj [("type", Json.str "CHARACTER")], 0, RelationType.Other, false⟩ rfl

end Anilist
